import Mathlib

/-!
# Verification of the diesel-heater BLE protocol codec layer

A shallow embedding of `diesel_heater_ble/protocol.py` (and the constants it
imports from `diesel_heater_ble/const.py`): the XOR encryption primitives, the
per-protocol `parse` functions and the command builders, together with proofs
of the behavioural claims made by the specification.

Modelling conventions:
* A byte buffer (`bytearray`) is a `List ℕ`; the BLE layer only ever hands the
  codecs buffers whose elements are `< 256`.
* Python code that can raise (an out-of-range `bytearray` read or write) is
  modelled in `Except Unit`: `.error ()` is a raised exception, `.ok v` is a
  normal return.  Parsers that guard their length up front never raise and are
  modelled as plain functions returning `Option`.
* Python `dict` results become records with one `Option` field per dict key
  (`none` = key absent).  Keys that Python can map to `None` while present
  (`co_ppm`, `pump_type`, `rf433_enabled`) become `Option (Option _)`.
* Python `float` arithmetic on these frames is exact decimal arithmetic
  (divisions by 10, halves), modelled in `ℚ`.
-/

namespace DieselHeater

/-- Constant `const.ENCRYPTION_KEY`: the fixed 8-byte single-XOR key (`"password"`). -/
def encryptionKey : List ℕ := [112, 97, 115, 115, 119, 111, 114, 100]

/-- Constant `const.SUNSTER_V21_KEY`: the fixed 15-byte CBFF key, the ASCII bytes of
`"passwordA2409PW"`. -/
def sunsterV21Key : List ℕ :=
  [112, 97, 115, 115, 119, 111, 114, 100, 65, 50, 52, 48, 57, 80, 87]

/-- Constant `const.RUNNING_MODE_MANUAL` -/
def RUNNING_MODE_MANUAL : ℤ := 0
/-- Constant `const.RUNNING_MODE_LEVEL` -/
def RUNNING_MODE_LEVEL : ℤ := 1
/-- Constant `const.RUNNING_MODE_TEMPERATURE` -/
def RUNNING_MODE_TEMPERATURE : ℤ := 2

/-- Constant `const.CBFF_RUN_STATE_OFF = {2, 5, 6}` (membership test). -/
def cbffRunStateOff (v : ℤ) : Bool := v = 2 || v = 5 || v = 6

/-- Helper `_u8_to_number(value)`: add 256 to negative values.  On actual
`bytearray` elements (`0 ≤ b < 256`) it is the identity. -/
def u8ToNumber (v : ℤ) : ℤ := if v < 0 then v + 256 else v

/-- Helper `_unsign_to_sign(value)`: `value | -65536` when `value > 32767.5`.  For an
integer the comparison with `32767.5` is `32767 < value`. -/
def unsignToSign (v : ℤ) : ℤ := if 32767 < v then Int.lor v (-65536) else v

/-- Read one byte of a `bytearray`: `data[i]` raises `IndexError` when out of
range, modelled as `Except.error ()`. -/
def byteE (data : List ℕ) (i : ℕ) : Except Unit ℕ :=
  match data[i]? with
  | some b => Except.ok b
  | none => Except.error ()

/-- Read one byte under a length guard established by the caller (the source
only performs these reads after checking `len(data)`), so the default is
never returned on the guarded paths. -/
def byteD (data : List ℕ) (i : ℕ) : ℕ := data.getD i 0

instance {ε α : Type} [DecidableEq ε] [DecidableEq α] : DecidableEq (Except ε α) :=
  fun a b =>
    match a, b with
    | .error e, .error f =>
        if h : e = f then .isTrue (by rw [h]) else .isFalse (by simp [h])
    | .ok x, .ok y =>
        if h : x = y then .isTrue (by rw [h]) else .isFalse (by simp [h])
    | .error _, .ok _ => .isFalse (by simp)
    | .ok _, .error _ => .isFalse (by simp)



/-- The telemetry dict produced by the four Vevor (AA55-family) parsers. -/
structure VevorTelem where
  running_state : Option ℤ := none
  error_code : Option ℤ := none
  running_step : Option ℤ := none
  altitude : Option ℚ := none
  running_mode : Option ℤ := none
  set_level : Option ℤ := none
  set_temp : Option ℤ := none
  supply_voltage : Option ℚ := none
  case_temperature : Option ℚ := none
  cab_temperature : Option ℚ := none
  heater_offset : Option ℤ := none
  backlight : Option ℤ := none
  co_ppm : Option (Option ℚ) := none
  part_number : Option ℕ := none
  motherboard_version : Option ℤ := none
  temp_unit : Option ℤ := none
  auto_start_stop : Option Bool := none
  language : Option ℤ := none
  tank_volume : Option ℤ := none
  pump_type : Option (Option ℤ) := none
  rf433_enabled : Option (Option Bool) := none
  altitude_unit : Option ℤ := none
deriving Repr, DecidableEq

/-- The field assignments of `ProtocolAA55.parse` (mode 1, 18-20 bytes). -/
def parseAA55Fields (data : List ℕ) : VevorTelem :=
  let runningMode := u8ToNumber (byteD data 8)
  { running_state := some (u8ToNumber (byteD data 3))
    error_code := some (u8ToNumber (byteD data 4))
    running_step := some (u8ToNumber (byteD data 5))
    altitude := some ((u8ToNumber (byteD data 6) + 256 * u8ToNumber (byteD data 7) : ℤ) : ℚ)
    running_mode := some runningMode
    set_level :=
      if runningMode = RUNNING_MODE_LEVEL then some (u8ToNumber (byteD data 9))
      else if runningMode = RUNNING_MODE_TEMPERATURE then
        some (u8ToNumber (byteD data 10) + 1)
      else if runningMode = RUNNING_MODE_MANUAL then
        some (u8ToNumber (byteD data 10) + 1)
      else none
    set_temp :=
      if runningMode = RUNNING_MODE_LEVEL then none
      else if runningMode = RUNNING_MODE_TEMPERATURE then
        some (u8ToNumber (byteD data 9))
      else none
    supply_voltage :=
      some (((256 * u8ToNumber (byteD data 12) + u8ToNumber (byteD data 11) : ℤ) : ℚ) / 10)
    case_temperature :=
      some ((unsignToSign (256 * byteD data 14 + byteD data 13) : ℤ) : ℚ)
    cab_temperature :=
      some ((unsignToSign (256 * byteD data 16 + byteD data 15) : ℤ) : ℚ) }

/-- Source `ProtocolAA55.parse` has no length guard.  The source reads
`data[9]`/`data[10]` inside the mode branches and `data[11..16]`
unconditionally afterwards, so the buffers that raise `IndexError` are
exactly those with fewer than 17 bytes; the `byteE` match models those reads
and the fields are computed from the buffer as in the source. -/
def parseAA55 (data : List ℕ) : Except Unit VevorTelem :=
  match byteE data 3, byteE data 4, byteE data 5, byteE data 6, byteE data 7,
      byteE data 8, byteE data 9, byteE data 10, byteE data 11, byteE data 12,
      byteE data 13, byteE data 14, byteE data 15, byteE data 16 with
  | Except.ok _, Except.ok _, Except.ok _, Except.ok _, Except.ok _,
    Except.ok _, Except.ok _, Except.ok _, Except.ok _, Except.ok _,
    Except.ok _, Except.ok _, Except.ok _, Except.ok _ =>
      Except.ok (parseAA55Fields data)
  | _, _, _, _, _, _, _, _, _, _, _, _, _, _ => Except.error ()

/-- The field assignments of `ProtocolAA66.parse` (mode 3, 20 bytes). -/
def parseAA66Fields (data : List ℕ) : VevorTelem :=
  let runningMode := u8ToNumber (byteD data 8)
  -- voltage_raw = b11 | (b12 << 8); case_temp_raw = b13 | (b14 << 8)
  let voltageRaw : ℤ := u8ToNumber (byteD data 11) + 256 * u8ToNumber (byteD data 12)
  let caseTempRaw : ℤ := u8ToNumber (byteD data 13) + 256 * u8ToNumber (byteD data 14)
  { running_state := some (u8ToNumber (byteD data 3))
    error_code := some (u8ToNumber (byteD data 4))
    running_step := some (u8ToNumber (byteD data 5))
    altitude := some ((u8ToNumber (byteD data 6) : ℤ) : ℚ)
    running_mode := some runningMode
    set_level :=
      if runningMode = RUNNING_MODE_LEVEL then
        some (max 1 (min 10 (u8ToNumber (byteD data 9))))
      else none
    set_temp :=
      if runningMode = RUNNING_MODE_LEVEL then none
      else if runningMode = RUNNING_MODE_TEMPERATURE then
        some (max 8 (min 36 (u8ToNumber (byteD data 9))))
      else none
    supply_voltage := some ((voltageRaw : ℚ) / 10)
    -- auto-detect the 0.1 °C scale when the raw value exceeds 350
    case_temperature :=
      some (if 350 < caseTempRaw then (caseTempRaw : ℚ) / 10
            else (caseTempRaw : ℚ))
    cab_temperature := some ((u8ToNumber (byteD data 15) : ℤ) : ℚ) }

/-- Source `ProtocolAA66.parse` has no length guard.  `data[9]` is read inside the
mode branches and `data[11..15]` unconditionally afterwards, so raising is
equivalent to having fewer than 16 bytes; the `byteE` match models the
reads. -/
def parseAA66 (data : List ℕ) : Except Unit VevorTelem :=
  match byteE data 3, byteE data 4, byteE data 5, byteE data 6, byteE data 8,
      byteE data 9, byteE data 11, byteE data 12, byteE data 13, byteE data 14,
      byteE data 15 with
  | Except.ok _, Except.ok _, Except.ok _, Except.ok _, Except.ok _,
    Except.ok _, Except.ok _, Except.ok _, Except.ok _, Except.ok _,
    Except.ok _ =>
      Except.ok (parseAA66Fields data)
  | _, _, _, _, _, _, _, _, _, _, _ => Except.error ()

/-- The optional tail fields shared by `ProtocolAA55Encrypted.parse` and
`ProtocolAA66Encrypted.parse` (the `if len(data) > k:` sections at bytes
34–44), applied on top of a partially-built record. -/
def vevorEncryptedTail (data : List ℕ) (t : VevorTelem) : VevorTelem :=
  let t :=
    -- Byte 34: signed temperature offset
    if 34 < data.length then
      let raw : ℤ := byteD data 34
      { t with heater_offset := some (if 127 < raw then raw - 256 else raw) }
    else t
  let t :=
    -- Byte 36: backlight brightness
    if 36 < data.length then
      { t with backlight := some (u8ToNumber (byteD data 36)) }
    else t
  let t :=
    -- Byte 37: CO sensor present, bytes 38-39: CO ppm (big endian)
    if 39 < data.length then
      let ppm : ℤ := 256 * u8ToNumber (byteD data 38) + u8ToNumber (byteD data 39)
      if u8ToNumber (byteD data 37) = 1 then
        { t with co_ppm := some (some ((ppm : ℚ))) }
      else { t with co_ppm := some none }
    else t
  let t :=
    -- Bytes 40-43: part number (uint32 LE; rendered as a hex string in the
    -- source, modelled here by its numeric value)
    if 43 < data.length then
      let part : ℕ := byteD data 40 + 256 * byteD data 41
        + 65536 * byteD data 42 + 16777216 * byteD data 43
      if part ≠ 0 then { t with part_number := some part } else t
    else t
  let t :=
    -- Byte 44: motherboard version
    if 44 < data.length then
      let mb : ℤ := u8ToNumber (byteD data 44)
      if mb ≠ 0 then { t with motherboard_version := some mb } else t
    else t
  t

/-- The field assignments of `ProtocolAA55Encrypted.parse` (mode 2, 48
bytes already decrypted by the detector), byte 34+ tail included. -/
def parseAA55EncryptedFields (data : List ℕ) : VevorTelem :=
  vevorEncryptedTail data
    { running_state := some (u8ToNumber (byteD data 3))
      error_code := some (u8ToNumber (byteD data 4))
      running_step := some (u8ToNumber (byteD data 5))
      altitude :=
        some (((u8ToNumber (byteD data 7) + 256 * u8ToNumber (byteD data 6) : ℤ) : ℚ) / 10)
      running_mode := some (u8ToNumber (byteD data 8))
      set_level := some (max 1 (min 10 (u8ToNumber (byteD data 10))))
      set_temp := some (max 8 (min 36 (u8ToNumber (byteD data 9))))
      supply_voltage := some (((256 * byteD data 11 + byteD data 12 : ℤ) : ℚ) / 10)
      case_temperature :=
        some ((unsignToSign (256 * byteD data 13 + byteD data 14) : ℤ) : ℚ)
      cab_temperature :=
        some (((unsignToSign (256 * byteD data 32 + byteD data 33) : ℤ) : ℚ) / 10) }

/-- Source `ProtocolAA55Encrypted.parse` has no length guard; unconditional reads go
up to `data[33]` (the byte 34+ sections are length-guarded in the source and
modelled inside `vevorEncryptedTail`). -/
def parseAA55Encrypted (data : List ℕ) : Except Unit VevorTelem :=
  match byteE data 3, byteE data 4, byteE data 5, byteE data 6, byteE data 7,
      byteE data 8, byteE data 9, byteE data 10, byteE data 11, byteE data 12,
      byteE data 13, byteE data 14, byteE data 32, byteE data 33 with
  | Except.ok _, Except.ok _, Except.ok _, Except.ok _, Except.ok _,
    Except.ok _, Except.ok _, Except.ok _, Except.ok _, Except.ok _,
    Except.ok _, Except.ok _, Except.ok _, Except.ok _ =>
      Except.ok (parseAA55EncryptedFields data)
  | _, _, _, _, _, _, _, _, _, _, _, _, _, _ => Except.error ()

/-- Python 3 `round` on an exact rational: round half to even. -/
def pyRound (q : ℚ) : ℤ :=
  let f := ⌊q⌋
  let r := q - f
  if r < 1 / 2 then f
  else if 1 / 2 < r then f + 1
  else if f % 2 = 0 then f else f + 1

/-- The field assignments of `ProtocolAA66Encrypted.parse` (mode 4, 48 bytes
already decrypted): `error_code` comes from byte 35 (not byte 4), and a
Fahrenheit set-temperature (byte 27 = 1) is converted to Celsius with Python
rounding before clamping to [8, 36].  The sections the source guards with
`len(data) > 26/28/29/30` are always live once byte 35 is readable; the byte
34+ tail is `vevorEncryptedTail`. -/
def parseAA66EncryptedFields (data : List ℕ) : VevorTelem :=
  let tempUnit := u8ToNumber (byteD data 27)
  let rawSetTemp := u8ToNumber (byteD data 9)
  let pumpByte := u8ToNumber (byteD data 29)
  vevorEncryptedTail data
    { running_state := some (u8ToNumber (byteD data 3))
      error_code := some (u8ToNumber (byteD data 35))  -- different position!
      running_step := some (u8ToNumber (byteD data 5))
      altitude :=
        some (((u8ToNumber (byteD data 7) + 256 * u8ToNumber (byteD data 6) : ℤ) : ℚ) / 10)
      running_mode := some (u8ToNumber (byteD data 8))
      set_level := some (max 1 (min 10 (u8ToNumber (byteD data 10))))
      temp_unit := some tempUnit
      set_temp :=
        if tempUnit = 1 then
          some (max 8 (min 36 (pyRound (((rawSetTemp - 32 : ℤ) : ℚ) * 5 / 9))))
        else some (max 8 (min 36 rawSetTemp))
      auto_start_stop := some (u8ToNumber (byteD data 31) = 1)
      language := some (u8ToNumber (byteD data 26))
      tank_volume := some (u8ToNumber (byteD data 28))
      pump_type :=
        if pumpByte = 20 then some none
        else if pumpByte = 21 then some none
        else some (some pumpByte)
      rf433_enabled :=
        if pumpByte = 20 then some (some false)
        else if pumpByte = 21 then some (some true)
        else some none
      altitude_unit := some (u8ToNumber (byteD data 30))
      supply_voltage := some (((256 * byteD data 11 + byteD data 12 : ℤ) : ℚ) / 10)
      case_temperature :=
        some ((unsignToSign (256 * byteD data 13 + byteD data 14) : ℤ) : ℚ)
      cab_temperature :=
        some (((unsignToSign (256 * byteD data 32 + byteD data 33) : ℤ) : ℚ) / 10) }

/-- Source `ProtocolAA66Encrypted.parse` has no length guard; unconditional reads go
up to `data[35]`. -/
def parseAA66Encrypted (data : List ℕ) : Except Unit VevorTelem :=
  match byteE data 3, byteE data 5, byteE data 6, byteE data 7, byteE data 8,
      byteE data 9, byteE data 10, byteE data 11, byteE data 12, byteE data 13,
      byteE data 14, byteE data 26, byteE data 27, byteE data 28, byteE data 29,
      byteE data 30, byteE data 31, byteE data 32, byteE data 33, byteE data 35 with
  | Except.ok _, Except.ok _, Except.ok _, Except.ok _, Except.ok _,
    Except.ok _, Except.ok _, Except.ok _, Except.ok _, Except.ok _,
    Except.ok _, Except.ok _, Except.ok _, Except.ok _, Except.ok _,
    Except.ok _, Except.ok _, Except.ok _, Except.ok _, Except.ok _ =>
      Except.ok (parseAA66EncryptedFields data)
  | _, _, _, _, _, _, _, _, _, _, _, _, _, _, _, _, _, _, _, _ => Except.error ()

/-- Source `VevorCommandMixin.build_command`: the shared 8-byte AA55 builder.
`bytearray` item assignment requires a value in `0..255`; of the five computed
bytes only `packet[2] = passkey // 100` can overflow (the others are reduced
`% 100` / `% 256`), so the raised `ValueError` is modelled by that single
guard. -/
def vevorBuildCommand (command argument passkey : ℕ) : Except Unit (List ℕ) :=
  let b2 := passkey / 100
  let b3 := passkey % 100
  let b4 := command % 256
  let b5 := argument % 256
  let b6 := (argument / 256) % 256
  if b2 < 256 then
    Except.ok [0xAA, 0x55, b2, b3, b4, b5, b6, (b2 + b3 + b4 + b5 + b6) % 256]
  else Except.error ()

/-- Source `ProtocolCBFF._build_aa55_fallback`: byte-for-byte the same builder as
`VevorCommandMixin.build_command`. -/
def cbffBuildAA55Fallback (command argument passkey : ℕ) : Except Unit (List ℕ) :=
  let b2 := passkey / 100
  let b3 := passkey % 100
  let b4 := command % 256
  let b5 := argument % 256
  let b6 := (argument / 256) % 256
  if b2 < 256 then
    Except.ok [0xAA, 0x55, b2, b3, b4, b5, b6, (b2 + b3 + b4 + b5 + b6) % 256]
  else Except.error ()

/-- Constant `const.ABBA_STATUS_MAP` (byte 4 → running step), with the source's
`dict.get(status_byte, status_byte)` fallback. -/
def abbaStatusMap (v : ℤ) : ℤ :=
  if v = 0x00 then 0  -- Powered off → standby
  else if v = 0x01 then 3  -- Running/heating
  else if v = 0x02 then 4  -- Cooldown
  else if v = 0x04 then 6  -- Ventilation
  else if v = 0x06 then 0  -- Standby
  else v

/-- The telemetry dict produced by `ProtocolABBA.parse`. -/
structure ABBATelem where
  connected : Bool := true
  running_state : Option ℤ := none
  running_step : Option ℤ := none
  error_code : Option ℤ := none
  running_mode : Option ℤ := none
  set_level : Option ℤ := none
  set_temp : Option ℤ := none
  auto_start_stop : Option Bool := none
  supply_voltage : Option ℚ := none
  temp_unit : Option ℤ := none
  cab_temperature : Option ℚ := none
  cab_temperature_raw : Option ℚ := none
  case_temperature : Option ℚ := none
  altitude_unit : Option ℤ := none
  high_altitude : Option ℤ := none
  altitude : Option ℤ := none
deriving Repr, DecidableEq

/-- Source `ProtocolABBA.parse` (mode 5): guarded by `len(data) < 21 → None`, so all
byte reads (highest index 17) are in range and the function never raises. -/
def parseABBA (data : List ℕ) : Option ABBATelem :=
  if data.length < 21 then none
  else
    let statusByte := u8ToNumber (byteD data 4)
    let modeByte := u8ToNumber (byteD data 5)
    let gearByte := u8ToNumber (byteD data 6)
    let runningMode : Option ℤ :=
      if modeByte = 0xFF then none  -- error state: keep last known mode
      else if modeByte = 0x00 then some RUNNING_MODE_LEVEL
      else if modeByte = 0x01 then some RUNNING_MODE_TEMPERATURE
      else some modeByte
    let tempUnit := u8ToNumber (byteD data 10)
    let envTempRaw := u8ToNumber (byteD data 11)
    let envTemp : ℤ := envTempRaw - (if tempUnit = 1 then 22 else 30)
    some
      { running_state := some (if statusByte = 0x01 then 1 else 0)
        running_step := some (abbaStatusMap statusByte)
        error_code := some (if modeByte = 0xFF then u8ToNumber (byteD data 6) else 0)
        running_mode := runningMode
        -- byte 6 is gear/target only outside the error state
        set_level :=
          if modeByte = 0xFF then none
          else if runningMode = some RUNNING_MODE_LEVEL then
            some (max 1 (min 10 gearByte))
          else none
        set_temp :=
          if modeByte = 0xFF then none
          else if runningMode = some RUNNING_MODE_LEVEL then none
          else some (max 8 (min 36 gearByte))
        auto_start_stop := some (u8ToNumber (byteD data 8) = 1)
        supply_voltage := some ((u8ToNumber (byteD data 9) : ℚ))
        temp_unit := some tempUnit
        cab_temperature := some ((envTemp : ℚ))
        cab_temperature_raw := some ((envTemp : ℚ))
        case_temperature :=
          some (((256 * u8ToNumber (byteD data 12) + u8ToNumber (byteD data 13) : ℤ) : ℚ))
        altitude_unit := some (u8ToNumber (byteD data 14))
        high_altitude := some (u8ToNumber (byteD data 15))
        altitude :=
          some (u8ToNumber (byteD data 16) + 256 * u8ToNumber (byteD data 17)) }

/-- Source `ProtocolABBA._build_abba`: append `sum(bytes) & 0xFF` as checksum. -/
def buildAbba (cmdBytes : List ℕ) : List ℕ := cmdBytes ++ [cmdBytes.sum % 256]

/-- Source `ProtocolABBA.build_command`.  Each branch's hex template is written out
as its byte list (e.g. `"baab04bba10000"`).  In the `command = 4` branch the
source renders the argument with `format(argument, '02x')`; that produces the
single byte `argument` exactly when `argument < 256` (larger arguments grow
the template or make `bytes.fromhex` raise), modelled as `none` there. -/
def buildCommandABBA (command argument passkey : ℕ) : Option (List ℕ) :=
  if command = 1 then some (buildAbba [0xBA, 0xAB, 0x04, 0xCC, 0x00, 0x00, 0x00])
  else if command = 3 then
    -- openOnHeat 0xA1 is a toggle: the same bytes for both ON and OFF
    some (buildAbba [0xBA, 0xAB, 0x04, 0xBB, 0xA1, 0x00, 0x00])
  else if command = 4 then
    if argument < 256 then
      some (buildAbba [0xBA, 0xAB, 0x04, 0xDB, argument, 0x00, 0x00])
    else none
  else if command = 2 then
    if argument = 2 then some (buildAbba [0xBA, 0xAB, 0x04, 0xBB, 0xAC, 0x00, 0x00])
    else if argument = 3 then some (buildAbba [0xBA, 0xAB, 0x04, 0xBB, 0xA4, 0x00, 0x00])
    else some (buildAbba [0xBA, 0xAB, 0x04, 0xBB, 0xAD, 0x00, 0x00])
  else if command = 15 then
    if argument = 1 then some (buildAbba [0xBA, 0xAB, 0x04, 0xBB, 0xA8, 0x00, 0x00])
    else some (buildAbba [0xBA, 0xAB, 0x04, 0xBB, 0xA7, 0x00, 0x00])
  else if command = 19 then
    if argument = 1 then some (buildAbba [0xBA, 0xAB, 0x04, 0xBB, 0xAA, 0x00, 0x00])
    else some (buildAbba [0xBA, 0xAB, 0x04, 0xBB, 0xA9, 0x00, 0x00])
  else if command = 99 then some (buildAbba [0xBA, 0xAB, 0x04, 0xBB, 0xA5, 0x00, 0x00])
  else if command = 101 then some (buildAbba [0xBA, 0xAB, 0x04, 0xBB, 0xA4, 0x00, 0x00])
  else some (buildAbba [0xBA, 0xAB, 0x04, 0xCC, 0x00, 0x00, 0x00])

/-- One cyclic XOR pass starting at position `i`: element `i + k` of the
input is XORed with `key[(i + k) % len(key)]`.  This is the loop
`for i in range(len(out)): out[i] ^= key[j]; j = (j + 1) % len(key)`
of `ProtocolCBFF._encrypt_cbff`, with `j = i % len(key)`. -/
def xorPassFrom (key : List ℕ) : ℕ → List ℕ → List ℕ
  | _, [] => []
  | i, b :: rest => (b ^^^ key.getD (i % key.length) 0) :: xorPassFrom key (i + 1) rest

/-- One full cyclic XOR pass over a buffer. -/
def xorPass (key : List ℕ) (data : List ℕ) : List ℕ := xorPassFrom key 0 data

/-- Source `ProtocolCBFF._encrypt_cbff`: XOR with the static 15-byte key first, then
with the device key (the ASCII bytes of the uppercased serial, passed here
directly as `key2`). -/
def encryptCbff (data : List ℕ) (key2 : List ℕ) : List ℕ :=
  xorPass key2 (xorPass sunsterV21Key data)

/-- Source `ProtocolCBFF._decrypt_cbff`: the same double-XOR as encryption. -/
def decryptCbff (data : List ℕ) (key2 : List ℕ) : List ℕ :=
  encryptCbff data key2

/-- The swapped-order decryption described by the specification's claim about
order dependence: the device-key pass first, then the static-key pass
(the source always applies the static key first). -/
def decryptCbffSwappedOrder (data : List ℕ) (key2 : List ℕ) : List ℕ :=
  xorPass sunsterV21Key (xorPass key2 data)

/-- Cipher `_decrypt_data`, the single-XOR cipher: the two nested loops
`for j in range(6): for i in range(8): if 8*j+i < len: d[8*j+i] ^= KEY[i]`
XOR position `idx` with `ENCRYPTION_KEY[idx % 8]` exactly when `idx < 48`. -/
def decryptDataFrom : ℕ → List ℕ → List ℕ
  | _, [] => []
  | i, b :: rest =>
      (if i < 48 then encryptionKey.getD (i % 8) 0 ^^^ b else b)
        :: decryptDataFrom (i + 1) rest

/-- Cipher `_decrypt_data` over a whole buffer. -/
def decryptData (data : List ℕ) : List ℕ := decryptDataFrom 0 data

/-- Cipher `_encrypt_data`: identical to `_decrypt_data` (XOR is symmetric). -/
def encryptData (data : List ℕ) : List ℕ := decryptData data



/-- The telemetry dict produced by `ProtocolCBFF.parse`. -/
structure CBFFTelem where
  connected : Bool := true
  cbff_protocol_version : Option ℤ := none
  running_state : Option ℤ := none
  running_step : Option ℤ := none
  running_mode : Option ℤ := none
  set_level : Option ℤ := none
  set_temp : Option ℤ := none
  error_code : Option ℤ := none
  temp_unit : Option ℤ := none
  cab_temperature : Option ℚ := none
  altitude_unit : Option ℤ := none
  altitude : Option ℤ := none
  supply_voltage : Option ℚ := none
  case_temperature : Option ℚ := none
  co_ppm : Option (Option ℚ) := none
  heater_offset : Option ℤ := none
  language : Option ℤ := none
  tank_volume : Option ℤ := none
  pump_type : Option (Option ℤ) := none
  rf433_enabled : Option (Option Bool) := none
  pwr_onoff : Option ℤ := none
  hardware_version : Option ℤ := none
  software_version : Option ℤ := none
  backlight : Option ℤ := none
  startup_temp_diff : Option ℤ := none
  shutdown_temp_diff : Option ℤ := none
  wifi_enabled : Option Bool := none
  auto_start_stop : Option Bool := none
  heater_mode : Option ℤ := none
  remain_run_time : Option ℤ := none
  cbff_data_suspect : Bool := false
  cbff_decrypted : Bool := false
deriving Repr, DecidableEq

/-- Source `ProtocolCBFF._parse_cbff_fields`: only called on buffers of at least 46
bytes (highest read index 45), so plain guarded reads are used. -/
def parseCbffFields (data : List ℕ) : CBFFTelem :=
  let runMode := u8ToNumber (byteD data 11)
  let runningMode :=
    if runMode = 1 ∨ runMode = 3 ∨ runMode = 4 then RUNNING_MODE_LEVEL
    else if runMode = 2 then RUNNING_MODE_TEMPERATURE
    else RUNNING_MODE_MANUAL
  let runParam := u8ToNumber (byteD data 12)
  -- Bytes 18-19: cabin temperature (int16 LE)
  let cab : ℤ :=
    let c : ℤ := byteD data 18 + 256 * byteD data 19
    if 32768 ≤ c then c - 65536 else c
  -- Bytes 25-26: case temperature (int16 LE, /10)
  let case0 : ℤ :=
    let c : ℤ := byteD data 25 + 256 * byteD data 26
    if 32768 ≤ c then c - 65536 else c
  -- Bytes 27-28: CO sensor (uint16 LE, /10); 6553+ means not present
  let coPpm : ℚ := ((byteD data 27 + 256 * byteD data 28 : ℕ) : ℚ) / 10
  let tempComp : ℤ := byteD data 34
  let lang := u8ToNumber (byteD data 35)
  let tank := u8ToNumber (byteD data 36)
  let pump := u8ToNumber (byteD data 37)
  let hwVer : ℤ := byteD data 30 + 256 * byteD data 31
  let swVer : ℤ := byteD data 32 + 256 * byteD data 33
  let backlight := u8ToNumber (byteD data 38)
  let startupDiff := u8ToNumber (byteD data 39)
  let shutdownDiff := u8ToNumber (byteD data 40)
  let wifi := u8ToNumber (byteD data 41)
  let remain : ℤ := byteD data 44 + 256 * byteD data 45
  { connected := true
    cbff_protocol_version := some (u8ToNumber (byteD data 2))
    running_state := some (if cbffRunStateOff (u8ToNumber (byteD data 10)) then 0 else 1)
    running_step := some (u8ToNumber (byteD data 14))
    running_mode := some runningMode
    set_level :=
      if runningMode = RUNNING_MODE_LEVEL then some (max 1 (min 10 runParam))
      else if runningMode = RUNNING_MODE_TEMPERATURE then
        -- byte 13: current gear even in temperature mode
        some (max 1 (min 10 (u8ToNumber (byteD data 13))))
      else none
    set_temp :=
      if runningMode = RUNNING_MODE_LEVEL then none
      else some (max 8 (min 36 runParam))
    error_code := some (u8ToNumber (byteD data 15) % 64)  -- & 0x3F
    temp_unit := some (u8ToNumber (byteD data 17) % 16)   -- & 0x0F
    cab_temperature := some ((cab : ℚ))
    altitude_unit := some (u8ToNumber (byteD data 20) % 16)
    altitude := some ((byteD data 21 + 256 * byteD data 22 : ℕ) : ℤ)
    supply_voltage := some (((byteD data 23 + 256 * byteD data 24 : ℕ) : ℚ) / 10)
    case_temperature := some ((case0 : ℚ) / 10)
    co_ppm := some (if coPpm < 6553 then some coPpm else none)
    heater_offset := some (if 127 < tempComp then tempComp - 256 else tempComp)
    language := if lang ≠ 255 then some lang else none
    tank_volume := if tank ≠ 255 then some tank else none
    pump_type :=
      if pump ≠ 255 then
        if pump = 20 then some none
        else if pump = 21 then some none
        else some (some pump)
      else none
    rf433_enabled :=
      if pump ≠ 255 then
        if pump = 20 then some (some false)
        else if pump = 21 then some (some true)
        else some none
      else none
    pwr_onoff := some (u8ToNumber (byteD data 29))
    hardware_version := if hwVer ≠ 0 then some hwVer else none
    software_version := if swVer ≠ 0 then some swVer else none
    backlight := if backlight ≠ 255 then some backlight else none
    startup_temp_diff := if startupDiff ≠ 255 then some startupDiff else none
    shutdown_temp_diff := if shutdownDiff ≠ 255 then some shutdownDiff else none
    wifi_enabled := if wifi ≠ 255 then some (wifi = 1) else none
    auto_start_stop := some (u8ToNumber (byteD data 42) = 1)
    heater_mode := some (u8ToNumber (byteD data 43))
    remain_run_time := if remain ≠ 65535 then some remain else none }

/-- Source `ProtocolCBFF._is_data_suspect`: physically impossible voltage or cabin
temperature (`parsed.get` with default 0). -/
def isDataSuspect (t : CBFFTelem) : Bool :=
  let voltage := t.supply_voltage.getD 0
  let cabTemp := t.cab_temperature.getD 0
  100 < voltage ∨ voltage < 0 ∨ 500 < |cabTemp|

/-- The `parsed.pop(key, None)` loop of `ProtocolCBFF.parse`: mark the data
suspect and drop every sensor/config-derived field, keeping `connected`,
`cbff_protocol_version` and `running_state`. -/
def stripSuspectFields (t : CBFFTelem) : CBFFTelem :=
  { t with
    cbff_data_suspect := true
    cab_temperature := none
    case_temperature := none
    supply_voltage := none
    altitude := none
    co_ppm := none
    heater_offset := none
    error_code := none
    running_step := none
    running_mode := none
    set_level := none
    set_temp := none
    temp_unit := none
    altitude_unit := none
    language := none
    tank_volume := none
    pump_type := none
    rf433_enabled := none
    backlight := none
    startup_temp_diff := none
    shutdown_temp_diff := none
    wifi_enabled := none
    auto_start_stop := none
    heater_mode := none
    remain_run_time := none
    hardware_version := none
    software_version := none
    pwr_onoff := none }

/-- Source `ProtocolCBFF.parse` (mode 6, 46+ bytes): plaintext parse first, a
double-XOR decrypt retry when the plaintext is implausible and a device
serial is configured, and otherwise the stripped suspect record.
`deviceSn` is the configured device key (`self._device_sn`); the empty list
models the unset/falsy serial. -/
def parseCBFF (deviceSn : List ℕ) (data : List ℕ) : Option CBFFTelem :=
  if data.length < 46 then none
  else
    let parsed := parseCbffFields data
    if ¬ isDataSuspect parsed then some parsed
    else if deviceSn ≠ [] then
      let decrypted := decryptCbff data deviceSn
      let parsedDec := parseCbffFields decrypted
      if ¬ isDataSuspect parsedDec then some { parsedDec with cbff_decrypted := true }
      else some (stripSuspectFields parsed)
    else some (stripSuspectFields parsed)

/-- The telemetry dict produced by `ProtocolHcalory.parse`. -/
structure HcaloryTelem where
  connected : Bool := true
  heating_is_starting : Option Bool := none
  heating_is_stopping : Option Bool := none
  fan_is_running : Option Bool := none
  ignition_plug_running : Option Bool := none
  oil_pump_running : Option Bool := none
  operative_state_bits : Option ℕ := none
  running_step : Option ℤ := none
  hcalory_device_state : Option ℤ := none
  running_state : Option ℤ := none
  running_mode : Option ℤ := none
  set_temp : Option ℤ := none
  set_level : Option ℤ := none
  auto_start_stop : Option Bool := none
  supply_voltage : Option ℚ := none
  case_temperature : Option ℚ := none
  cab_temperature : Option ℚ := none
  high_altitude : Option ℤ := none
  temp_unit : Option ℤ := none
  altitude_unit : Option ℤ := none
  altitude : Option ℤ := none
  error_code : Option ℤ := none
deriving Repr, DecidableEq

/-- Source `ProtocolHcalory._parse_status_flags` works on the bit-reversed binary
rendering of the flags byte, so `reversed_binary[k]` is bit `k` (LSB first).
`operative_state_bits` is the two-character slice `[bit 6, bit 7]`, kept as a
string in the source and modelled by its value `int(op_bits, 2) = 2*bit6 + bit7`. -/
def hcaloryOpBits (flags : ℕ) : ℕ :=
  2 * (if flags.testBit 6 then 1 else 0) + (if flags.testBit 7 then 1 else 0)

/-- The operative-state → running-step lookup of `_parse_status_flags`:
`"00"` → 0 (stopped), `"01"` → 3 (running), `"10"` → 4 (cooldown),
`"11"` → 6 (fan/natural wind). -/
def hcaloryStepOfOpBits (op : ℕ) : ℤ :=
  if op = 0 then 0 else if op = 1 then 3 else if op = 2 then 4 else 6

/-- Source `ProtocolHcalory.parse` (mode 7).  The source parses the hex-character
rendering `data.hex().upper()`; character slice `[2*i : 2*i+2]` is byte `i`,
so `len(hex_str) >= 2*n` is `n ≤ len(data)` and all offsets are stated here
in byte positions.  The guard is `len(hex_str) < 52`, i.e. fewer than 26
bytes → `None`; the MVP2 extension needs 60 hex characters, i.e. 30 bytes.
All slices parsed with `int(..., 16)` are valid hex, so the `except` branch
is unreachable and `parse` never raises. -/
def parseHcalory (data : List ℕ) : Option HcaloryTelem :=
  if data.length < 26 then none
  else
    let flags := byteD data 8
    let opVal := hcaloryOpBits flags
    let ds : ℤ := byteD data 9  -- device_state, chars 18-19
    let tempOrGear : ℤ := byteD data 10
    let runningMode : ℤ :=
      if ds = 0x01 then RUNNING_MODE_TEMPERATURE
      else if ds = 0x02 then RUNNING_MODE_LEVEL
      else RUNNING_MODE_MANUAL  -- natural wind (0x03) and all others
    let shellSign : ℤ := if byteD data 14 = 1 then -1 else 1
    let shellValue : ℤ := 256 * byteD data 15 + byteD data 16
    let ambientSign : ℤ := if byteD data 17 = 1 then -1 else 1
    let ambientValue : ℤ := 256 * byteD data 18 + byteD data 19
    some
      { connected := true
        heating_is_starting := some (flags.testBit 0)
        heating_is_stopping := some (flags.testBit 1)
        fan_is_running := some (flags.testBit 2)
        ignition_plug_running := some (flags.testBit 3)
        oil_pump_running := some (flags.testBit 4)
        operative_state_bits := some opVal
        -- the standby device state overwrites the flags-derived step with 0
        running_step := some (if ds = 0 then 0 else hcaloryStepOfOpBits opVal)
        hcalory_device_state := some ds
        running_state := some (if ds = 0 then 0 else if ds = 0xFF then 0 else 1)
        running_mode := some runningMode
        -- Beta.33: gear levels 1-6 are used directly (no table mapping)
        set_temp :=
          if runningMode = RUNNING_MODE_TEMPERATURE then
            some (max 8 (min 36 tempOrGear))
          else none
        set_level :=
          if runningMode = RUNNING_MODE_TEMPERATURE then none
          else some (max 1 (min 10 tempOrGear))
        auto_start_stop := some (byteD data 11 = 1)
        supply_voltage := some (((256 * byteD data 12 + byteD data 13 : ℕ) : ℚ) / 10)
        case_temperature := some (((shellSign * shellValue : ℤ) : ℚ) / 10)
        cab_temperature := some (((ambientSign * ambientValue : ℤ) : ℚ) / 10)
        high_altitude := some ((byteD data 24 : ℤ))
        temp_unit := some ((byteD data 25 : ℤ))
        altitude_unit := if 30 ≤ data.length then some ((byteD data 26 : ℤ)) else none
        altitude :=
          if 30 ≤ data.length then
            some ((if byteD data 27 = 1 then -1 else 1)
              * (256 * byteD data 28 + byteD data 29 : ℤ))
          else none
        error_code := some (if ds = 0xFF then (opVal : ℤ) else 0) }

/-- Source `ProtocolHcalory._map_hcalory_to_standard_level`: the fixed gear table
with the `max(1, min(10, 2*level))` fallback.  Present on the class but no
longer used by `parse` in this revision (Beta.33, issue #40). -/
def mapHcaloryToStandardLevel (l : ℤ) : ℤ :=
  if l = 1 then 2 else if l = 2 then 4 else if l = 3 then 5
  else if l = 4 then 6 else if l = 5 then 8 else if l = 6 then 10
  else max 1 (min 10 (2 * l))

/-- Source `ProtocolHcalory._map_standard_to_hcalory_level`: the inverse table.
Present on the class but no longer used by `build_command` in this revision. -/
def mapStandardToHcaloryLevel (s : ℤ) : ℤ :=
  if s ≤ 2 then 1 else if s ≤ 4 then 2 else if s = 5 then 3
  else if s = 6 then 4 else if s ≤ 8 then 5 else 6

/-- Source `ProtocolHcalory._build_hcalory_cmd`: 8-byte header, then the checksum
payload `[cmd_lo, 0, 0, len(payload)] ++ payload`, then the checksum over
that payload portion. -/
def hcaloryCmd (cmdType : ℕ) (payload : List ℕ) : List ℕ :=
  let cmdHi := (cmdType >>> 8) % 256
  let cmdLo := cmdType % 256
  let payloadForChecksum := [cmdLo, 0, 0, payload.length] ++ payload
  [0x00, 0x02, 0x00, 0x01, 0x00, 0x01, 0x00, cmdHi]
    ++ payloadForChecksum ++ [payloadForChecksum.sum % 256]

/-- Source `ProtocolHcalory._to_bcd`. -/
def toBcd (n : ℕ) : ℕ := ((n / 10) <<< 4) ||| (n % 10)

/-- Source `ProtocolHcalory._build_mvp2_query_cmd`, with the wall-clock reading
`datetime.now()` passed in as `(hour, minute, second)`. -/
def hcaloryMvp2QueryCmd (hour minute second : ℕ) : List ℕ :=
  let packet := [0x00, 0x02, 0x00, 0x01, 0x00, 0x01, 0x00, 0x0A, 0x0A, 0x00,
    0x00, 0x05] ++ [toBcd hour, toBcd minute, toBcd second, 0x00, 0x00] ++ [0x00]
  packet ++ [packet.sum % 256]

/-- Source `ProtocolHcalory.build_command` (`argument` is a Python int and may be
negative for the altitude command, hence `ℤ`). -/
def buildCommandHcalory (isMvp2 : Bool) (hour minute second : ℕ)
    (command : ℕ) (argument : ℤ) (passkey : ℕ) : List ℕ :=
  if command = 0 ∨ command = 1 then
    if isMvp2 then hcaloryMvp2QueryCmd hour minute second
    else hcaloryCmd 0x0E04 [0, 0, 0, 0, 0, 0, 0, 0, 0x00]  -- HCALORY_POWER_QUERY
  else if command = 2 then
    hcaloryCmd 0x070B [(max 1 (min 2 argument)).toNat, 0]
  else if command = 3 then
    -- HCALORY_POWER_ON = 0x02, HCALORY_POWER_OFF = 0x01
    hcaloryCmd 0x0E04 [0, 0, 0, 0, 0, 0, 0, 0, if argument = 1 then 0x02 else 0x01]
  else if command = 4 then
    hcaloryCmd 0x0706 [(max 8 (min 36 argument)).toNat, 0]
  else if command = 5 then
    -- Beta.33: the 1-6 gear level is used directly (no table mapping),
    -- clamped to [HCALORY_MIN_LEVEL, HCALORY_MAX_LEVEL] = [1, 10]
    hcaloryCmd 0x0607 [(max 1 (min 10 argument)).toNat]
  else if command = 22 then
    hcaloryCmd 0x0E04 [0, 0, 0, 0, 0, 0, 0, 0, if argument = 1 then 0x03 else 0x04]
  else if command = 15 then
    hcaloryCmd 0x0E04 [0, 0, 0, 0, 0, 0, 0, 0, if argument = 1 then 0x0B else 0x0A]
  else if command = 14 then
    hcaloryCmd 0x0909
      [if 0 ≤ argument then 0x00 else 0x01,
        (argument.natAbs >>> 8) % 256, argument.natAbs % 256, 0x00]
  else hcaloryCmd 0x0E04 [0, 0, 0, 0, 0, 0, 0, 0, 0x00]

/-! ## Concrete frames and claim-level properties -/

/-- A 48-byte decrypted AA66-Encrypted frame: set-temperature byte 9 = 100,
temperature-unit byte 27 = 1 (Fahrenheit), error byte 35 = 7. -/
def aa66encFahrenheitFrame : List ℕ :=
  [0, 0, 0, 0, 0, 0, 0, 0, 0, 100,
   0, 0, 0, 0, 0, 0, 0, 0, 0, 0,
   0, 0, 0, 0, 0, 0, 0, 1, 0, 0,
   0, 0, 0, 0, 0, 7, 0, 0, 0, 0,
   0, 0, 0, 0, 0, 0, 0, 0]

/-- The clamping property of the specification: whenever telemetry carries
`set_level`, it lies in [1, 10]; whenever it carries `set_temp`, it lies in
[8, 36]. -/
def levelTempClamped (setLevel setTemp : Option ℤ) : Prop :=
  (∀ v, setLevel = some v → 1 ≤ v ∧ v ≤ 10) ∧
  (∀ v, setTemp = some v → 8 ≤ v ∧ v ≤ 36)

/-- An 18-byte AA55 frame in temperature mode (byte 8 = 2) with a raw
set-temperature of 50. -/
def aa55UnclampedFrame : List ℕ :=
  [0xAA, 0x55, 0, 1, 0, 0, 0, 0, 2, 50, 0, 0xC8, 0, 0x96, 0, 0xE8, 0, 0]

/-- A 20-byte AA66 frame in level mode (byte 8 = 1) with raw level 15. -/
def aa66Level15Frame : List ℕ :=
  [0xAA, 0x66, 0, 1, 0, 0, 0, 0, 1, 15, 0, 0, 0, 0, 0, 0, 0, 0, 0, 0]

/-- A 20-byte AA66 frame in temperature mode (byte 8 = 2) with raw
temperature 50. -/
def aa66Temp50Frame : List ℕ :=
  [0xAA, 0x66, 0, 1, 0, 0, 0, 0, 2, 50, 0, 0, 0, 0, 0, 0, 0, 0, 0, 0]

/-- The telemetry record `ProtocolAA66.parse` produces on
`aa66Level15Frame`. -/
def aa66Level15Rec : VevorTelem :=
  { running_state := some 1
    error_code := some 0
    running_step := some 0
    altitude := some 0
    running_mode := some 1
    set_level := some 10
    supply_voltage := some 0
    case_temperature := some 0
    cab_temperature := some 0 }

/-- A 26-byte Hcalory response frame: device state byte 9 = 2 (manual gear
mode), gear byte 10 = 1. -/
def hcaloryGearFrame : List ℕ :=
  [0, 0, 0, 0, 0, 0, 0, 0, 0, 2,
   1, 0, 0, 0, 0, 0, 0, 0, 0, 0,
   0, 0, 0, 0, 0, 0]

/-- A 46-byte CBFF frame whose plaintext voltage field (bytes 23-24, little
endian) holds 2000, i.e. 200.0 V — physically implausible. -/
def cbffSuspectFrame : List ℕ :=
  [0, 0, 0, 0, 0, 0, 0, 0, 0, 0,
   0, 0, 0, 0, 0, 0, 0, 0, 0, 0,
   0, 0, 0, 0xD0, 0x07, 0, 0, 0, 0, 0,
   0, 0, 0, 0, 0, 0, 0, 0, 0, 0,
   0, 0, 0, 0, 0, 0]

/-! ## Shared helper lemmas -/

theorem byteE_ok_iff {data : List ℕ} {i : ℕ} {b : ℕ} :
    byteE data i = Except.ok b ↔ data[i]? = some b := by
  unfold byteE
  cases h : data[i]? <;> simp

theorem byteE_eq_ok {data : List ℕ} {i : ℕ} (h : i < data.length) :
    byteE data i = Except.ok (byteD data i) := by
  unfold byteE byteD
  cases hg : data[i]? with
  | none => exact absurd hg (by simp [List.getElem?_eq_none_iff]; omega)
  | some b => simp [List.getD, hg]

theorem byteE_ok_getD {data : List ℕ} {i b : ℕ} (h : byteE data i = Except.ok b) :
    byteD data i = b := by
  unfold byteD
  simp [List.getD, byteE_ok_iff.mp h]

theorem u8_cast (n : ℕ) : u8ToNumber (n : ℤ) = n := by
  unfold u8ToNumber
  simp


theorem xorPassFrom_involutive (key : List ℕ) :
    ∀ (i : ℕ) (data : List ℕ), xorPassFrom key i (xorPassFrom key i data) = data := by
  intro i data
  induction data generalizing i with
  | nil => rfl
  | cons b rest ih =>
      simp only [xorPassFrom, ih]
      congr 1
      rw [Nat.xor_assoc, Nat.xor_self, Nat.xor_zero]

theorem xorPass_involutive (key : List ℕ) (data : List ℕ) :
    xorPass key (xorPass key data) = data :=
  xorPassFrom_involutive key 0 data

theorem decryptDataFrom_involutive :
    ∀ (i : ℕ) (data : List ℕ), decryptDataFrom i (decryptDataFrom i data) = data := by
  intro i data
  induction data generalizing i with
  | nil => rfl
  | cons b rest ih =>
      simp only [decryptDataFrom, ih]
      congr 1
      by_cases h : i < 48
      · simp only [h, if_true]
        rw [← Nat.xor_assoc, Nat.xor_self, Nat.zero_xor]
      · simp [h]

theorem decryptData_encryptData (data : List ℕ) :
    decryptData (encryptData data) = data :=
  decryptDataFrom_involutive 0 data

theorem xorPassFrom_comm (k1 k2 : List ℕ) :
    ∀ (i : ℕ) (data : List ℕ),
      xorPassFrom k1 i (xorPassFrom k2 i data)
        = xorPassFrom k2 i (xorPassFrom k1 i data) := by
  intro i data
  induction data generalizing i with
  | nil => rfl
  | cons b rest ih =>
      simp only [xorPassFrom, ih]
      congr 1
      rw [Nat.xor_assoc, Nat.xor_assoc,
        Nat.xor_comm (k2.getD (i % k2.length) 0) (k1.getD (i % k1.length) 0)]

theorem xorPass_comm (k1 k2 data : List ℕ) :
    xorPass k1 (xorPass k2 data) = xorPass k2 (xorPass k1 data) :=
  xorPassFrom_comm k1 k2 0 data

theorem decryptCbff_encryptCbff (data key2 : List ℕ) :
    decryptCbff (encryptCbff data key2) key2 = data := by
  unfold decryptCbff encryptCbff
  rw [xorPass_comm sunsterV21Key key2 (xorPass sunsterV21Key data),
    xorPass_involutive, xorPass_involutive]

theorem decryptCbffSwappedOrder_encryptCbff (data key2 : List ℕ) :
    decryptCbffSwappedOrder (encryptCbff data key2) key2 = data := by
  unfold decryptCbffSwappedOrder encryptCbff
  rw [xorPass_involutive, xorPass_involutive]

theorem clamp_bounds (lo hi x : ℤ) (h : lo ≤ hi) :
    lo ≤ max lo (min hi x) ∧ max lo (min hi x) ≤ hi :=
  ⟨le_max_left _ _, max_le h (min_le_left _ _)⟩

/-- On a buffer long enough for all its reads, `ProtocolAA55.parse` succeeds. -/
theorem parseAA55_eq_ok {data : List ℕ} (h : 17 ≤ data.length) :
    parseAA55 data = Except.ok (parseAA55Fields data) := by
  unfold parseAA55
  rw [byteE_eq_ok (show 3 < data.length by omega),
    byteE_eq_ok (show 4 < data.length by omega),
    byteE_eq_ok (show 5 < data.length by omega),
    byteE_eq_ok (show 6 < data.length by omega),
    byteE_eq_ok (show 7 < data.length by omega),
    byteE_eq_ok (show 8 < data.length by omega),
    byteE_eq_ok (show 9 < data.length by omega),
    byteE_eq_ok (show 10 < data.length by omega),
    byteE_eq_ok (show 11 < data.length by omega),
    byteE_eq_ok (show 12 < data.length by omega),
    byteE_eq_ok (show 13 < data.length by omega),
    byteE_eq_ok (show 14 < data.length by omega),
    byteE_eq_ok (show 15 < data.length by omega),
    byteE_eq_ok (show 16 < data.length by omega)]

/-- On a buffer long enough for all its reads, `ProtocolAA66.parse` succeeds. -/
theorem parseAA66_eq_ok {data : List ℕ} (h : 16 ≤ data.length) :
    parseAA66 data = Except.ok (parseAA66Fields data) := by
  unfold parseAA66
  rw [byteE_eq_ok (show 3 < data.length by omega),
    byteE_eq_ok (show 4 < data.length by omega),
    byteE_eq_ok (show 5 < data.length by omega),
    byteE_eq_ok (show 6 < data.length by omega),
    byteE_eq_ok (show 8 < data.length by omega),
    byteE_eq_ok (show 9 < data.length by omega),
    byteE_eq_ok (show 11 < data.length by omega),
    byteE_eq_ok (show 12 < data.length by omega),
    byteE_eq_ok (show 13 < data.length by omega),
    byteE_eq_ok (show 14 < data.length by omega),
    byteE_eq_ok (show 15 < data.length by omega)]

/-- On a buffer long enough for all its reads, `ProtocolAA55Encrypted.parse`
succeeds. -/
theorem parseAA55Encrypted_eq_ok {data : List ℕ} (h : 34 ≤ data.length) :
    parseAA55Encrypted data = Except.ok (parseAA55EncryptedFields data) := by
  unfold parseAA55Encrypted
  rw [byteE_eq_ok (show 3 < data.length by omega),
    byteE_eq_ok (show 4 < data.length by omega),
    byteE_eq_ok (show 5 < data.length by omega),
    byteE_eq_ok (show 6 < data.length by omega),
    byteE_eq_ok (show 7 < data.length by omega),
    byteE_eq_ok (show 8 < data.length by omega),
    byteE_eq_ok (show 9 < data.length by omega),
    byteE_eq_ok (show 10 < data.length by omega),
    byteE_eq_ok (show 11 < data.length by omega),
    byteE_eq_ok (show 12 < data.length by omega),
    byteE_eq_ok (show 13 < data.length by omega),
    byteE_eq_ok (show 14 < data.length by omega),
    byteE_eq_ok (show 32 < data.length by omega),
    byteE_eq_ok (show 33 < data.length by omega)]

/-- On a buffer long enough for all its reads, `ProtocolAA66Encrypted.parse`
succeeds. -/
theorem parseAA66Encrypted_eq_ok {data : List ℕ} (h : 36 ≤ data.length) :
    parseAA66Encrypted data = Except.ok (parseAA66EncryptedFields data) := by
  unfold parseAA66Encrypted
  rw [byteE_eq_ok (show 3 < data.length by omega),
    byteE_eq_ok (show 5 < data.length by omega),
    byteE_eq_ok (show 6 < data.length by omega),
    byteE_eq_ok (show 7 < data.length by omega),
    byteE_eq_ok (show 8 < data.length by omega),
    byteE_eq_ok (show 9 < data.length by omega),
    byteE_eq_ok (show 10 < data.length by omega),
    byteE_eq_ok (show 11 < data.length by omega),
    byteE_eq_ok (show 12 < data.length by omega),
    byteE_eq_ok (show 13 < data.length by omega),
    byteE_eq_ok (show 14 < data.length by omega),
    byteE_eq_ok (show 26 < data.length by omega),
    byteE_eq_ok (show 27 < data.length by omega),
    byteE_eq_ok (show 28 < data.length by omega),
    byteE_eq_ok (show 29 < data.length by omega),
    byteE_eq_ok (show 30 < data.length by omega),
    byteE_eq_ok (show 31 < data.length by omega),
    byteE_eq_ok (show 32 < data.length by omega),
    byteE_eq_ok (show 33 < data.length by omega),
    byteE_eq_ok (show 35 < data.length by omega)]

/-- The byte-34+ tail sections only touch `heater_offset`, `backlight`,
`co_ppm`, `part_number` and `motherboard_version`. -/
theorem vevorEncryptedTail_preserves (data : List ℕ) (t : VevorTelem) :
    (vevorEncryptedTail data t).error_code = t.error_code ∧
    (vevorEncryptedTail data t).set_temp = t.set_temp ∧
    (vevorEncryptedTail data t).set_level = t.set_level := by
  unfold vevorEncryptedTail
  dsimp only
  simp only [apply_ite VevorTelem.error_code, apply_ite VevorTelem.set_temp,
    apply_ite VevorTelem.set_level]
  simp

theorem parseAA66Fields_clamped (data : List ℕ) :
    levelTempClamped (parseAA66Fields data).set_level (parseAA66Fields data).set_temp := by
  unfold parseAA66Fields levelTempClamped
  dsimp only
  constructor
  · intro v hv
    split at hv
    · injection hv with hv
      subst hv
      exact clamp_bounds 1 10 _ (by norm_num)
    · exact absurd hv (by simp)
  · intro v hv
    split at hv
    · exact absurd hv (by simp)
    · split at hv
      · injection hv with hv
        subst hv
        exact clamp_bounds 8 36 _ (by norm_num)
      · exact absurd hv (by simp)

theorem parseAA55EncryptedFields_clamped (data : List ℕ) :
    levelTempClamped (parseAA55EncryptedFields data).set_level
      (parseAA55EncryptedFields data).set_temp := by
  unfold parseAA55EncryptedFields
  rw [levelTempClamped, (vevorEncryptedTail_preserves data _).2.1,
    (vevorEncryptedTail_preserves data _).2.2]
  constructor
  · intro v hv
    dsimp only at hv
    injection hv with hv
    subst hv
    exact clamp_bounds 1 10 _ (by norm_num)
  · intro v hv
    dsimp only at hv
    injection hv with hv
    subst hv
    exact clamp_bounds 8 36 _ (by norm_num)

theorem parseAA66EncryptedFields_clamped (data : List ℕ) :
    levelTempClamped (parseAA66EncryptedFields data).set_level
      (parseAA66EncryptedFields data).set_temp := by
  unfold parseAA66EncryptedFields
  rw [levelTempClamped, (vevorEncryptedTail_preserves data _).2.1,
    (vevorEncryptedTail_preserves data _).2.2]
  constructor
  · intro v hv
    dsimp only at hv
    injection hv with hv
    subst hv
    exact clamp_bounds 1 10 _ (by norm_num)
  · intro v hv
    dsimp only at hv
    split at hv <;>
      (injection hv with hv
       subst hv
       exact clamp_bounds 8 36 _ (by norm_num))

theorem parseCbffFields_clamped (data : List ℕ) :
    levelTempClamped (parseCbffFields data).set_level (parseCbffFields data).set_temp := by
  unfold parseCbffFields levelTempClamped
  dsimp only
  constructor <;>
  · intro v hv
    repeat' split at hv
    all_goals
      first
        | exact Option.noConfusion hv
        | (injection hv with hv
           subst hv
           first
             | exact clamp_bounds 1 10 _ (by norm_num)
             | exact clamp_bounds 8 36 _ (by norm_num))

/-! ## Claims -/

/-- C1: both ciphers are self-inverse round-trips: decrypting the single-XOR
encryption of any buffer yields the buffer (the fixed 8-byte key applied in
8-byte blocks over at most the first 48 bytes), and for every buffer and
every (nonempty) device-serial key, decrypting the double-XOR encryption
(15-byte static key cyclically, then the device key cyclically) yields the
buffer, for any buffer length. -/
theorem ciphers_self_inverse :
    (∀ data : List ℕ, decryptData (encryptData data) = data) ∧
    (∀ (data key2 : List ℕ), key2 ≠ [] →
      decryptCbff (encryptCbff data key2) key2 = data) :=
  ⟨decryptData_encryptData, fun data key2 _ => decryptCbff_encryptCbff data key2⟩

theorem ciphers_self_inverse_witness :
    decryptData (encryptData [1, 2, 3]) = [1, 2, 3] ∧
    (([65, 66, 67] : List ℕ) ≠ [] ∧
      decryptCbff (encryptCbff [9, 8, 7, 6] [65, 66, 67]) [65, 66, 67] = [9, 8, 7, 6]) :=
  ⟨ciphers_self_inverse.1 [1, 2, 3],
    by decide, ciphers_self_inverse.2 [9, 8, 7, 6] [65, 66, 67] (by decide)⟩

/-- C2: `ProtocolAA55.parse` on the 18-byte reference frame returns
`running_state = 1`, `running_mode = 1`, `set_level = 5`,
`supply_voltage = 20.0`, `case_temperature = 150`, `cab_temperature = 232`. -/
theorem aa55_parse_reference_frame :
    parseAA55 [0xAA, 0x55, 0, 1, 0, 0, 0, 0, 1, 5, 0, 0xC8, 0, 0x96, 0, 0xE8, 0, 0]
      = Except.ok
          { running_state := some 1
            error_code := some 0
            running_step := some 0
            altitude := some 0
            running_mode := some 1
            set_level := some 5
            supply_voltage := some 20
            case_temperature := some 150
            cab_temperature := some 232 } := by
  simp only [parseAA55, byteE]
  norm_num [parseAA55Fields, byteD, u8ToNumber, unsignToSign, RUNNING_MODE_LEVEL,
    RUNNING_MODE_TEMPERATURE, RUNNING_MODE_MANUAL]

/-- C3 counterexample: the claim says every codec's parse returns "no data"
(`None`) on a buffer shorter than its minimum frame length.  `ProtocolAA55.parse`
has no length guard: on the empty buffer the read `data[3]` raises `IndexError`
instead of returning `None` (the base class documents this: "Raises: Exception
on parse errors (coordinator handles fallback)"). -/
theorem aa55_parse_raises_on_empty : parseAA55 [] = Except.error () := by
  decide

/-- C3 (amended): the codecs with an explicit length guard — ABBA (< 21
bytes), CBFF (< 46 bytes) and Hcalory (< 26 bytes) — return `None` on a short
buffer without raising; the four AA55-family parsers instead raise on a
too-short buffer (shown here on the empty buffer), which the caller catches. -/
theorem guarded_parsers_short_buffer :
    ∀ (data deviceSn : List ℕ),
      (data.length < 21 → parseABBA data = none) ∧
      (data.length < 46 → parseCBFF deviceSn data = none) ∧
      (data.length < 26 → parseHcalory data = none) ∧
      (parseAA66 [] = Except.error () ∧
        parseAA55Encrypted [] = Except.error () ∧
        parseAA66Encrypted [] = Except.error ()) := by
  intro data deviceSn
  refine ⟨fun h => ?_, fun h => ?_, fun h => ?_, by decide, by decide, by decide⟩
  · unfold parseABBA
    rw [if_pos h]
  · unfold parseCBFF
    rw [if_pos h]
  · unfold parseHcalory
    rw [if_pos h]

theorem guarded_parsers_short_buffer_witness :
    ([0xAB, 0xBA, 0] : List ℕ).length < 21 ∧
      parseABBA [0xAB, 0xBA, 0] = none ∧
      parseCBFF [] [0xAB, 0xBA, 0] = none ∧
      parseHcalory [0xAB, 0xBA, 0] = none :=
  ⟨by decide,
    (guarded_parsers_short_buffer [0xAB, 0xBA, 0] []).1 (by decide),
    (guarded_parsers_short_buffer [0xAB, 0xBA, 0] []).2.1 (by decide),
    (guarded_parsers_short_buffer [0xAB, 0xBA, 0] []).2.2.1 (by decide)⟩





/-- C4 counterexample: `ProtocolAA55.parse` (the plain AA55 codec) does not
clamp: an 18-byte temperature-mode frame with raw set-temperature 50 parses
to `set_temp = 50`, outside the claimed [8, 36] range. -/
theorem aa55_parse_does_not_clamp :
    (parseAA55 aa55UnclampedFrame).map (fun t => t.set_temp)
      = Except.ok (some 50) ∧ ¬((50 : ℤ) ≤ 36) := by
  constructor
  · decide
  · decide

set_option maxHeartbeats 1000000 in
/-- C4 (amended): every codec except the plain AA55 parser clamps — whenever
a telemetry record returned by the AA66, AA55-Encrypted, AA66-Encrypted,
ABBA, CBFF or Hcalory parser carries `set_level` it lies in [1, 10], and
whenever it carries `set_temp` it lies in [8, 36]; in particular, AA66 parse
maps a raw level of 15 to 10 and a raw temperature of 50 to 36.
(`ProtocolAA55.parse` passes raw values through unclamped, see the
counterexample.) -/
theorem codecs_clamp_levels_and_temps :
    (∀ (data : List ℕ) (t : VevorTelem), parseAA66 data = Except.ok t →
      levelTempClamped t.set_level t.set_temp) ∧
    (∀ (data : List ℕ) (t : VevorTelem), parseAA55Encrypted data = Except.ok t →
      levelTempClamped t.set_level t.set_temp) ∧
    (∀ (data : List ℕ) (t : VevorTelem), parseAA66Encrypted data = Except.ok t →
      levelTempClamped t.set_level t.set_temp) ∧
    (∀ (data : List ℕ) (t : ABBATelem), parseABBA data = some t →
      levelTempClamped t.set_level t.set_temp) ∧
    (∀ (deviceSn data : List ℕ) (t : CBFFTelem), parseCBFF deviceSn data = some t →
      levelTempClamped t.set_level t.set_temp) ∧
    (∀ (data : List ℕ) (t : HcaloryTelem), parseHcalory data = some t →
      levelTempClamped t.set_level t.set_temp) ∧
    (parseAA66 aa66Level15Frame).map (fun t => t.set_level) = Except.ok (some 10) ∧
    (parseAA66 aa66Temp50Frame).map (fun t => t.set_temp) = Except.ok (some 36) := by
  refine ⟨?_, ?_, ?_, ?_, ?_, ?_, by decide, by decide⟩
  · intro data t h
    unfold parseAA66 at h
    split at h
    · injection h with h
      subst h
      exact parseAA66Fields_clamped data
    · exact absurd h (by simp)
  · intro data t h
    unfold parseAA55Encrypted at h
    split at h
    · injection h with h
      subst h
      exact parseAA55EncryptedFields_clamped data
    · exact absurd h (by simp)
  · intro data t h
    unfold parseAA66Encrypted at h
    split at h
    · injection h with h
      subst h
      exact parseAA66EncryptedFields_clamped data
    · exact absurd h (by simp)
  · intro data t h
    unfold parseABBA at h
    split at h
    · exact absurd h (by simp)
    · injection h with h
      subst h
      constructor <;>
      · intro v hv
        dsimp only at hv
        repeat' split at hv
        all_goals
          first
            | exact Option.noConfusion hv
            | (injection hv with hv
               subst hv
               first
                 | exact clamp_bounds 1 10 _ (by norm_num)
                 | exact clamp_bounds 8 36 _ (by norm_num))
  · intro deviceSn data t h
    unfold parseCBFF at h
    simp only [] at h
    by_cases hlen : data.length < 46
    · rw [if_pos hlen] at h
      exact absurd h (by simp)
    · rw [if_neg hlen] at h
      by_cases hs : ¬ isDataSuspect (parseCbffFields data) = true
      · rw [if_pos hs] at h
        injection h with h
        subst h
        exact parseCbffFields_clamped data
      · rw [if_neg hs] at h
        by_cases hsn : deviceSn ≠ []
        · rw [if_pos hsn] at h
          by_cases hs2 :
              ¬ isDataSuspect (parseCbffFields (decryptCbff data deviceSn)) = true
          · rw [if_pos hs2] at h
            injection h with h
            subst h
            exact parseCbffFields_clamped (decryptCbff data deviceSn)
          · rw [if_neg hs2] at h
            injection h with h
            subst h
            exact ⟨fun v hv => Option.noConfusion hv, fun v hv => Option.noConfusion hv⟩
        · rw [if_neg hsn] at h
          injection h with h
          subst h
          exact ⟨fun v hv => Option.noConfusion hv, fun v hv => Option.noConfusion hv⟩
  · intro data t h
    unfold parseHcalory at h
    split at h
    · exact absurd h (by simp)
    · injection h with h
      subst h
      constructor <;>
      · intro v hv
        dsimp only at hv
        repeat' split at hv
        all_goals
          first
            | exact Option.noConfusion hv
            | (injection hv with hv
               subst hv
               first
                 | exact clamp_bounds 1 10 _ (by norm_num)
                 | exact clamp_bounds 8 36 _ (by norm_num))

theorem codecs_clamp_levels_and_temps_witness :
    parseAA66 aa66Level15Frame = Except.ok aa66Level15Rec ∧
    levelTempClamped aa66Level15Rec.set_level aa66Level15Rec.set_temp := by
  have hp : parseAA66 aa66Level15Frame = Except.ok aa66Level15Rec := by
    rw [parseAA66_eq_ok (by decide)]
    congr 1
    simp only [parseAA66Fields, aa66Level15Frame, aa66Level15Rec, byteD]
    norm_num [u8ToNumber, RUNNING_MODE_LEVEL, RUNNING_MODE_TEMPERATURE,
      RUNNING_MODE_MANUAL]
  exact ⟨hp, codecs_clamp_levels_and_temps.1 aa66Level15Frame aa66Level15Rec hp⟩

/-- C5 counterexample: on an implausible CBFF frame with no device key, the
code does not strip *only* the offending fields — `running_mode` (present and
unremarkable in the plaintext parse, here `0`) is stripped along with every
other sensor/config field. -/
theorem cbff_suspect_strips_nonoffending_fields :
    (parseCbffFields cbffSuspectFrame).running_mode = some 0 ∧
    (parseCbffFields cbffSuspectFrame).supply_voltage = some 200 ∧
    (parseCBFF [] cbffSuspectFrame).map
        (fun t => (t.cbff_data_suspect, t.supply_voltage, t.cab_temperature,
          t.running_mode))
      = some (true, none, none, none) := by
  have hv : (parseCbffFields cbffSuspectFrame).supply_voltage = some 200 := by
    simp [parseCbffFields, byteD, cbffSuspectFrame]
    norm_num
  have hs : isDataSuspect (parseCbffFields cbffSuspectFrame) = true := by
    unfold isDataSuspect
    rw [hv]
    norm_num
  refine ⟨by decide, hv, ?_⟩
  unfold parseCBFF
  rw [if_neg (by decide)]
  simp only [hs]
  norm_num
  exact ⟨rfl, rfl, rfl, rfl⟩

/-- C5 (amended): a 46+-byte CBFF frame whose plaintext parse yields
`supply_voltage > 100` or `|cab_temperature| > 500`, with no device-serial
key configured, is not rejected outright: parse returns the plaintext record
with `_cbff_data_suspect = true` and the whole sensor/config field set
stripped — in particular `supply_voltage` and `cab_temperature` are omitted —
while `connected` and `running_state` survive. -/
theorem cbff_implausible_data_strips_sensors :
    ∀ data : List ℕ, 46 ≤ data.length →
      (100 < (parseCbffFields data).supply_voltage.getD 0
        ∨ 500 < |(parseCbffFields data).cab_temperature.getD 0|) →
      parseCBFF [] data = some (stripSuspectFields (parseCbffFields data)) ∧
      (stripSuspectFields (parseCbffFields data)).cbff_data_suspect = true ∧
      (stripSuspectFields (parseCbffFields data)).supply_voltage = none ∧
      (stripSuspectFields (parseCbffFields data)).cab_temperature = none ∧
      (stripSuspectFields (parseCbffFields data)).running_state
        = (parseCbffFields data).running_state ∧
      (stripSuspectFields (parseCbffFields data)).connected
        = (parseCbffFields data).connected := by
  intro data hlen hsus
  have hs : isDataSuspect (parseCbffFields data) = true := by
    unfold isDataSuspect
    rcases hsus with h | h <;> simp [h]
  refine ⟨?_, rfl, rfl, rfl, rfl, rfl⟩
  unfold parseCBFF
  rw [if_neg (by omega)]
  simp only [hs]
  norm_num

theorem cbff_implausible_data_strips_sensors_witness :
    46 ≤ cbffSuspectFrame.length ∧
    100 < (parseCbffFields cbffSuspectFrame).supply_voltage.getD 0 ∧
    parseCBFF [] cbffSuspectFrame
      = some (stripSuspectFields (parseCbffFields cbffSuspectFrame)) := by
  have hv : 100 < (parseCbffFields cbffSuspectFrame).supply_voltage.getD 0 := by
    have : (parseCbffFields cbffSuspectFrame).supply_voltage = some 200 := by
      simp [parseCbffFields, byteD, cbffSuspectFrame]
      norm_num
    rw [this]
    norm_num
  exact ⟨by decide, hv,
    (cbff_implausible_data_strips_sensors cbffSuspectFrame (by decide) (Or.inl hv)).1⟩

/-- C6 counterexample: the specification asserts the existence of a buffer
(of length not evenly divisible by both key lengths) on which encrypting
key1-then-key2 and decrypting with the passes swapped fails to round-trip.
No such buffer exists: the two XOR passes cancel regardless of order. -/
theorem cbff_swapped_decrypt_no_failure :
    ¬ ∃ (data key2 : List ℕ), key2 ≠ [] ∧
      ¬(data.length % 15 = 0 ∧ data.length % key2.length = 0) ∧
      decryptCbffSwappedOrder (encryptCbff data key2) key2 ≠ data := by
  rintro ⟨d, k, -, -, hne⟩
  exact hne (decryptCbffSwappedOrder_encryptCbff d k)

/-- C6 (amended): the two XOR key passes commute, so the pass order is
irrelevant to the round-trip: for every buffer and every nonempty device
key, decrypting with the passes in key2-then-key1 order still recovers the
buffer encrypted in key1-then-key2 order. -/
theorem cbff_swapped_decrypt_roundTrip :
    ∀ (data key2 : List ℕ), key2 ≠ [] →
      decryptCbffSwappedOrder (encryptCbff data key2) key2 = data :=
  fun data key2 _ => decryptCbffSwappedOrder_encryptCbff data key2

theorem cbff_swapped_decrypt_roundTrip_witness :
    (([68, 69] : List ℕ) ≠ [] ∧
      decryptCbffSwappedOrder (encryptCbff [1, 2, 3, 4, 5, 6, 7] [68, 69]) [68, 69]
        = [1, 2, 3, 4, 5, 6, 7]) :=
  ⟨by decide, cbff_swapped_decrypt_roundTrip [1, 2, 3, 4, 5, 6, 7] [68, 69] (by decide)⟩

/-- C7: `ProtocolAA66Encrypted.parse` reads `error_code` from byte 35 (for
every accepted buffer, whatever byte 4 holds), and when the temperature-unit
byte 27 equals 1 (Fahrenheit) a raw set-temperature of 100 °F is converted
to Celsius with rounding and clamped to [8, 36], yielding `set_temp = 36`. -/
theorem aa66enc_error_byte35_fahrenheit :
    ∀ data : List ℕ, 36 ≤ data.length →
      (parseAA66Encrypted data).map (fun t => t.error_code)
          = Except.ok (some (u8ToNumber (byteD data 35))) ∧
      (byteD data 27 = 1 → byteD data 9 = 100 →
        (parseAA66Encrypted data).map (fun t => t.set_temp)
          = Except.ok (some 36)) := by
  intro data h
  rw [parseAA66Encrypted_eq_ok h]
  constructor
  · show Except.ok (parseAA66EncryptedFields data).error_code = _
    unfold parseAA66EncryptedFields
    rw [(vevorEncryptedTail_preserves data _).1]
  · intro h27 h9
    show Except.ok (parseAA66EncryptedFields data).set_temp = _
    unfold parseAA66EncryptedFields
    rw [(vevorEncryptedTail_preserves data _).2.1]
    show Except.ok (if u8ToNumber (byteD data 27) = 1 then _ else _) = _
    rw [h27, h9]
    norm_num [u8ToNumber, pyRound]

theorem aa66enc_error_byte35_fahrenheit_witness :
    (36 ≤ (aa66encFahrenheitFrame).length ∧
      byteD aa66encFahrenheitFrame 27 = 1 ∧ byteD aa66encFahrenheitFrame 9 = 100) ∧
    (parseAA66Encrypted aa66encFahrenheitFrame).map (fun t => t.error_code)
      = Except.ok (some (u8ToNumber (byteD aa66encFahrenheitFrame 35))) ∧
    (parseAA66Encrypted aa66encFahrenheitFrame).map (fun t => t.set_temp)
      = Except.ok (some 36) :=
  ⟨⟨by decide, by decide, by decide⟩,
    (aa66enc_error_byte35_fahrenheit aa66encFahrenheitFrame (by decide)).1,
    (aa66enc_error_byte35_fahrenheit aa66encFahrenheitFrame (by decide)).2
      (by decide) (by decide)⟩

/-- C8: the ABBA power command (logical command 3) is argument-independent:
for every passkey and argument 0 or 1 the builder emits the identical packet,
which begins `BA AB`, contains `BB A1`, and ends with the sum of all
preceding bytes masked with `0xFF`. -/
theorem abba_power_command_argument_independent :
    ∀ (passkey argument : ℕ), argument = 0 ∨ argument = 1 →
      buildCommandABBA 3 argument passkey = buildCommandABBA 3 0 passkey ∧
      buildCommandABBA 3 argument passkey
        = some [0xBA, 0xAB, 0x04, 0xBB, 0xA1, 0x00, 0x00, 0xC5] ∧
      (0xC5 : ℕ) = ([0xBA, 0xAB, 0x04, 0xBB, 0xA1, 0x00, 0x00] : List ℕ).sum % 256 := by
  intro passkey argument _
  exact ⟨rfl, rfl, by decide⟩

theorem abba_power_command_argument_independent_witness :
    ((1 : ℕ) = 0 ∨ (1 : ℕ) = 1) ∧
      (buildCommandABBA 3 1 1234 = buildCommandABBA 3 0 1234 ∧
        buildCommandABBA 3 1 1234
          = some [0xBA, 0xAB, 0x04, 0xBB, 0xA1, 0x00, 0x00, 0xC5] ∧
        (0xC5 : ℕ) = ([0xBA, 0xAB, 0x04, 0xBB, 0xA1, 0x00, 0x00] : List ℕ).sum % 256) :=
  ⟨Or.inr rfl, abba_power_command_argument_independent 1234 1 (Or.inr rfl)⟩

/-- C9 counterexample: the Hcalory codec does not apply the fixed gear table.
On a gear-mode frame with device gear 1, `parse` reports `set_level = 1`
(the table would give 2), and `build_command(5, 3, _)` emits gear byte 3
(the inverse table would give 2): since Beta.33 (issue #40) the levels are
used directly. -/
theorem hcalory_parse_gear_unmapped :
    (parseHcalory hcaloryGearFrame).map (fun t => (t.running_mode, t.set_level))
      = some (some 1, some 1) ∧
    buildCommandHcalory true 0 0 0 5 3 1234
      = [0x00, 0x02, 0x00, 0x01, 0x00, 0x01, 0x00, 0x06, 0x07, 0x00, 0x00, 0x01,
         0x03, 0x0B] := by
  constructor
  · decide
  · decide

/-- C9 (amended): the helper functions `_map_hcalory_to_standard_level` /
`_map_standard_to_hcalory_level` still implement the pinned fixed table
`{1:2, 2:4, 3:5, 4:6, 5:8, 6:10}`, but neither `parse` nor `build_command`
uses them: on a gear-mode frame `parse` reports the device gear directly,
clamped into [1, 10], and `build_command` for the set-level command (5)
emits its argument directly, clamped into [1, 10]. -/
theorem hcalory_gear_levels_direct :
    (mapHcaloryToStandardLevel 1 = 2 ∧ mapHcaloryToStandardLevel 2 = 4 ∧
      mapHcaloryToStandardLevel 3 = 5 ∧ mapHcaloryToStandardLevel 4 = 6 ∧
      mapHcaloryToStandardLevel 5 = 8 ∧ mapHcaloryToStandardLevel 6 = 10) ∧
    (∀ data : List ℕ, 26 ≤ data.length → byteD data 9 = 2 →
      (parseHcalory data).map (fun t => t.set_level)
        = some (some (max 1 (min 10 ((byteD data 10 : ℕ) : ℤ))))) ∧
    (∀ (isMvp2 : Bool) (hour minute second passkey : ℕ) (argument : ℤ),
      buildCommandHcalory isMvp2 hour minute second 5 argument passkey
        = hcaloryCmd 0x0607 [(max 1 (min 10 argument)).toNat]) := by
  refine ⟨by decide, ?_, ?_⟩
  · intro data hlen h9
    unfold parseHcalory
    rw [if_neg (by omega)]
    simp [h9, RUNNING_MODE_LEVEL, RUNNING_MODE_TEMPERATURE, RUNNING_MODE_MANUAL]
  · intro isMvp2 hour minute second passkey argument
    rfl

theorem hcalory_gear_levels_direct_witness :
    (26 ≤ hcaloryGearFrame.length ∧ byteD hcaloryGearFrame 9 = 2) ∧
    (parseHcalory hcaloryGearFrame).map (fun t => t.set_level)
      = some (some (max 1 (min 10 ((byteD hcaloryGearFrame 10 : ℕ) : ℤ)))) :=
  ⟨⟨by decide, by decide⟩,
    hcalory_gear_levels_direct.2.1 hcaloryGearFrame (by decide) (by decide)⟩

/-- C10 counterexample: the shared AA55 builder does not return a packet for
*every* passkey: at `passkey = 25600` the assignment
`packet[2] = passkey // 100 = 256` is rejected by `bytearray` and the builder
raises instead of returning an 8-byte packet. -/
theorem vevor_build_passkey_overflow :
    vevorBuildCommand 0 0 25600 = Except.error () := by
  decide

/-- C10 (amended): for every command and argument, and every passkey below
25600 (so that `passkey // 100` fits in a byte — all 4-digit passkeys
qualify), the shared AA55 builder and the identical CBFF config-command
fallback return exactly the 8-byte packet
`AA 55, passkey//100, passkey%100, command%256, argument%256,
(argument//256)%256, checksum`, every byte below 256, with the final byte the
sum of bytes 2-6 modulo 256. -/
theorem vevor_build_command_shape :
    ∀ (command argument passkey : ℕ), passkey < 25600 →
      vevorBuildCommand command argument passkey
        = Except.ok [0xAA, 0x55, passkey / 100, passkey % 100, command % 256,
            argument % 256, (argument / 256) % 256,
            (passkey / 100 + passkey % 100 + command % 256 + argument % 256
              + (argument / 256) % 256) % 256] ∧
      cbffBuildAA55Fallback command argument passkey
        = vevorBuildCommand command argument passkey ∧
      ∀ p, vevorBuildCommand command argument passkey = Except.ok p →
        p.length = 8 ∧ ∀ b ∈ p, b < 256 := by
  intro command argument passkey h
  have hdiv : passkey / 100 < 256 := by omega
  unfold vevorBuildCommand cbffBuildAA55Fallback
  simp only [if_pos hdiv]
  refine ⟨trivial, trivial, ?_⟩
  intro p hp
  injection hp with hp
  subst hp
  refine ⟨rfl, ?_⟩
  intro b hb
  simp only [List.mem_cons, List.not_mem_nil, or_false] at hb
  rcases hb with h' | h' | h' | h' | h' | h' | h' | h' <;> subst h' <;> omega

theorem vevor_build_command_shape_witness :
    (1234 : ℕ) < 25600 ∧
      (vevorBuildCommand 3 1 1234
        = Except.ok [0xAA, 0x55, 1234 / 100, 1234 % 100, 3 % 256, 1 % 256,
            (1 / 256) % 256,
            (1234 / 100 + 1234 % 100 + 3 % 256 + 1 % 256 + (1 / 256) % 256) % 256] ∧
        cbffBuildAA55Fallback 3 1 1234 = vevorBuildCommand 3 1 1234 ∧
        ∀ p, vevorBuildCommand 3 1 1234 = Except.ok p →
          p.length = 8 ∧ ∀ b ∈ p, b < 256) :=
  ⟨by decide, vevor_build_command_shape 3 1 1234 (by decide)⟩

end DieselHeater
